import Mathlib

/-!
Verification of the `UAuthority` micro-form address model and validator
(`src/proto/uprotocol/uauthority.rs`) against its specification.
-/

/-- Modelled from the spec: the remote designator of an authority is a
single-slot sum type, absent or exactly one of Name (a character string),
Ip (a raw byte sequence) or Id (an opaque byte sequence).  The concrete
`Remote` enum is protobuf-generated and not part of the verified source. -/
inductive Remote where
  | name : String → Remote
  | ip : List Nat → Remote
  | id : List Nat → Remote
deriving DecidableEq

/-- Modelled from the spec: an authority carries at most one remote
designator.  The concrete `UAuthority` message is protobuf-generated. -/
structure UAuthority where
  remote : Option Remote
deriving DecidableEq

/-- Modelled from the spec: a `ValidationError` exposes a single textual
message.  The concrete type lives in `uri::validator`, outside the
verified source. -/
structure ValidationError where
  message : String
deriving DecidableEq

def ValidationError.new (m : String) : ValidationError := ⟨m⟩

/-- Modelled from the spec: the `Display`/`to_string` of a
`ValidationError` is its aggregated textual message, verbatim. -/
def ValidationError.to_string (e : ValidationError) : String := e.message

def REMOTE_IPV4_BYTES : Nat := 4

def REMOTE_IPV6_BYTES : Nat := 16

def REMOTE_ID_MINIMUM_BYTES : Nat := 1

def REMOTE_ID_MAXIMUM_BYTES : Nat := 255

def UAuthority.has_name (self : UAuthority) : Bool :=
  match self.remote with
  | some (Remote.name _) => true
  | _ => false

def UAuthority.has_ip (self : UAuthority) : Bool :=
  match self.remote with
  | some (Remote.ip _) => true
  | _ => false

def UAuthority.has_id (self : UAuthority) : Bool :=
  match self.remote with
  | some (Remote.id _) => true
  | _ => false

def UAuthority.get_name (self : UAuthority) : Option String :=
  match self.remote with
  | some (Remote.name n) => some n
  | _ => none

def UAuthority.get_ip (self : UAuthority) : Option (List Nat) :=
  match self.remote with
  | some (Remote.ip ip) => some ip
  | _ => none

def UAuthority.get_id (self : UAuthority) : Option (List Nat) :=
  match self.remote with
  | some (Remote.id i) => some i
  | _ => none

def UAuthority.set_name (self : UAuthority) (n : String) : UAuthority :=
  { self with remote := some (Remote.name n) }

def UAuthority.set_ip (self : UAuthority) (ip : List Nat) : UAuthority :=
  { self with remote := some (Remote.ip ip) }

def UAuthority.set_id (self : UAuthority) (i : List Nat) : UAuthority :=
  { self with remote := some (Remote.id i) }

/-- The local `validation_errors` vector of `validate_micro_form` after the
`match` on `self.remote`: each arm pushes at most one
`ValidationError` onto the initially empty vector. -/
def UAuthority.micro_form_validation_errors (self : UAuthority) : List ValidationError :=
  match self.remote with
  | none =>
      [ValidationError.new "Has Authority, but no remote"]
  | some (Remote.ip ip) =>
      if ¬ (ip.length = REMOTE_IPV4_BYTES ∨ ip.length = REMOTE_IPV6_BYTES) then
        [ValidationError.new "IP address is not IPv4 (4 bytes) or IPv6 (16 bytes)"]
      else []
  | some (Remote.id i) =>
      if ¬ (REMOTE_ID_MINIMUM_BYTES ≤ i.length ∧ i.length ≤ REMOTE_ID_MAXIMUM_BYTES) then
        [ValidationError.new "ID doesn\x27t fit in bytes allocated"]
      else []
  | some (Remote.name _) =>
      [ValidationError.new "Must use IP address or ID as UAuthority for micro form."]

/-- `UAuthority::validate_micro_form`: if the collected error vector is
non-empty, the messages are joined with a comma-space separator into one
aggregated error, otherwise the authority is accepted. -/
def UAuthority.validate_micro_form (self : UAuthority) : Except ValidationError Unit :=
  if ¬ self.micro_form_validation_errors.isEmpty then
    Except.error (ValidationError.new
      (String.intercalate ", " (self.micro_form_validation_errors.map ValidationError.to_string)))
  else
    Except.ok ()

/-- Method-call semantics of `validate_micro_form`: a Rust method maps the
receiver to the receiver after the call together with the return value.
`validate_micro_form` takes `&self`, a shared (read-only) borrow, so the
receiver after the call is the receiver itself. -/
def UAuthority.validate_micro_form_method (self : UAuthority) :
    UAuthority × Except ValidationError Unit :=
  (self, self.validate_micro_form)

/-- `pat` occurs verbatim inside `s`. -/
def mentionsStr (pat s : String) : Prop := ∃ pre post : String, s = pre ++ pat ++ post

/-- Claim C1: an authority whose remote is `Ip` validates successfully in
micro form exactly when the byte sequence has length 4 or 16; every other
length yields an error whose message mentions both the IPv4 (4 bytes) and
the IPv6 (16 bytes) sizes. -/
theorem C1_ip_micro_form (ip : List Nat) :
    (UAuthority.validate_micro_form ⟨some (Remote.ip ip)⟩ = Except.ok () ↔
      (ip.length = 4 ∨ ip.length = 16)) ∧
    (ip.length ≠ 4 → ip.length ≠ 16 →
      ∃ m, UAuthority.validate_micro_form ⟨some (Remote.ip ip)⟩ =
          Except.error (ValidationError.new m) ∧
        mentionsStr "IPv4 (4 bytes)" m ∧ mentionsStr "IPv6 (16 bytes)" m) := by
  constructor
  · by_cases h : ip.length = REMOTE_IPV4_BYTES ∨ ip.length = REMOTE_IPV6_BYTES
    · simp [UAuthority.validate_micro_form, UAuthority.micro_form_validation_errors, h,
        REMOTE_IPV4_BYTES, REMOTE_IPV6_BYTES] at *
      tauto
    · simp [UAuthority.validate_micro_form, UAuthority.micro_form_validation_errors, h,
        REMOTE_IPV4_BYTES, REMOTE_IPV6_BYTES] at *
      tauto
  · intro h4 h16
    have h : ¬ (ip.length = REMOTE_IPV4_BYTES ∨ ip.length = REMOTE_IPV6_BYTES) := by
      simp [REMOTE_IPV4_BYTES, REMOTE_IPV6_BYTES]
      exact ⟨h4, h16⟩
    refine ⟨"IP address is not IPv4 (4 bytes) or IPv6 (16 bytes)", ?_, ?_, ?_⟩
    · simp [UAuthority.validate_micro_form, UAuthority.micro_form_validation_errors, h,
        ValidationError.new, ValidationError.to_string, String.intercalate]
      decide
    · exact ⟨"IP address is not ", " or IPv6 (16 bytes)", by decide⟩
    · exact ⟨"IP address is not IPv4 (4 bytes) or ", "", by decide⟩

/-- Witness for C1 at the concrete length-5 byte sequence `[1,2,3,4,5]`. -/
theorem C1_ip_micro_form_witness :
    ∃ m, UAuthority.validate_micro_form ⟨some (Remote.ip [1, 2, 3, 4, 5])⟩ =
        Except.error (ValidationError.new m) ∧
      mentionsStr "IPv4 (4 bytes)" m ∧ mentionsStr "IPv6 (16 bytes)" m :=
  (C1_ip_micro_form [1, 2, 3, 4, 5]).2 (by decide) (by decide)

/-- Claim C2: an authority whose remote is `Id` validates successfully in
micro form exactly when the byte length lies in the interval from 1 to
255; any other length (0, 256, or larger) yields the fixed error about
the allocated byte range. -/
theorem C2_id_micro_form (i : List Nat) :
    (UAuthority.validate_micro_form ⟨some (Remote.id i)⟩ = Except.ok () ↔
      (1 ≤ i.length ∧ i.length ≤ 255)) ∧
    (¬ (1 ≤ i.length ∧ i.length ≤ 255) →
      UAuthority.validate_micro_form ⟨some (Remote.id i)⟩ =
        Except.error (ValidationError.new "ID doesn\x27t fit in bytes allocated")) := by
  constructor
  · by_cases h : REMOTE_ID_MINIMUM_BYTES ≤ i.length ∧ i.length ≤ REMOTE_ID_MAXIMUM_BYTES
    · simp [UAuthority.validate_micro_form, UAuthority.micro_form_validation_errors, h,
        REMOTE_ID_MINIMUM_BYTES, REMOTE_ID_MAXIMUM_BYTES] at *
    · simp [UAuthority.validate_micro_form, UAuthority.micro_form_validation_errors, h,
        REMOTE_ID_MINIMUM_BYTES, REMOTE_ID_MAXIMUM_BYTES] at *
  · intro h
    have h' : ¬ (REMOTE_ID_MINIMUM_BYTES ≤ i.length ∧ i.length ≤ REMOTE_ID_MAXIMUM_BYTES) := by
      simpa [REMOTE_ID_MINIMUM_BYTES, REMOTE_ID_MAXIMUM_BYTES] using h
    simp [UAuthority.validate_micro_form, UAuthority.micro_form_validation_errors, h',
      ValidationError.new, ValidationError.to_string, String.intercalate]
    decide

/-- Witness for C2 at the empty byte sequence (length 0). -/
theorem C2_id_micro_form_witness :
    UAuthority.validate_micro_form ⟨some (Remote.id ([] : List Nat))⟩ =
      Except.error (ValidationError.new "ID doesn\x27t fit in bytes allocated") :=
  (C2_id_micro_form []).2 (by decide)

/-- Claim C3: an authority whose remote is `Name` never validates in micro
form: whatever the name, the result is the fixed error stating that only
the IP or ID forms are legal, and that message mentions both forms. -/
theorem C3_name_micro_form (n : String) :
    UAuthority.validate_micro_form ⟨some (Remote.name n)⟩ =
      Except.error
        (ValidationError.new "Must use IP address or ID as UAuthority for micro form.") ∧
    mentionsStr "IP address or ID"
      "Must use IP address or ID as UAuthority for micro form." := by
  constructor
  · simp [UAuthority.validate_micro_form, UAuthority.micro_form_validation_errors,
      ValidationError.new, ValidationError.to_string, String.intercalate]
    decide
  · exact ⟨"Must use ", " as UAuthority for micro form.", by decide⟩

/-- Claim C4: an authority with no remote designator fails micro-form
validation with a single collected reason, and that reason mentions the
missing remote. -/
theorem C4_no_remote (a : UAuthority) (h : a.remote = none) :
    a.micro_form_validation_errors = [ValidationError.new "Has Authority, but no remote"] ∧
    a.validate_micro_form = Except.error (ValidationError.new "Has Authority, but no remote") ∧
    mentionsStr "no remote" "Has Authority, but no remote" := by
  refine ⟨?_, ?_, ?_⟩
  · simp [UAuthority.micro_form_validation_errors, h]
  · simp [UAuthority.validate_micro_form, UAuthority.micro_form_validation_errors, h,
      ValidationError.new, ValidationError.to_string, String.intercalate]
    decide
  · exact ⟨"Has Authority, but ", "", by decide⟩

/-- Witness for C4 at the authority with an absent remote. -/
theorem C4_no_remote_witness :
    UAuthority.micro_form_validation_errors ⟨none⟩ =
        [ValidationError.new "Has Authority, but no remote"] ∧
    UAuthority.validate_micro_form ⟨none⟩ =
        Except.error (ValidationError.new "Has Authority, but no remote") ∧
    mentionsStr "no remote" "Has Authority, but no remote" :=
  C4_no_remote ⟨none⟩ rfl

/-- Claim C5: `has_name`, `has_ip` and `has_id` are pairwise mutually
exclusive on every authority, and one of them holds exactly when a remote
designator is set. -/
theorem C5_has_predicates_exclusive (a : UAuthority) :
    (a.has_name && a.has_ip) = false ∧
    (a.has_name && a.has_id) = false ∧
    (a.has_ip && a.has_id) = false ∧
    (a.has_name || a.has_ip || a.has_id) = a.remote.isSome := by
  obtain ⟨r⟩ := a
  cases r with
  | none => simp [UAuthority.has_name, UAuthority.has_ip, UAuthority.has_id]
  | some rem =>
      cases rem <;>
        simp [UAuthority.has_name, UAuthority.has_ip, UAuthority.has_id]

/-- Claim C6: each getter returns the stored designator value when its
variant is set, and an absent result (never an error) when the remote is
absent or a different variant is set. -/
theorem C6_getters (n : String) (b : List Nat) :
    UAuthority.get_name ⟨some (Remote.name n)⟩ = some n ∧
    UAuthority.get_name ⟨some (Remote.ip b)⟩ = none ∧
    UAuthority.get_name ⟨some (Remote.id b)⟩ = none ∧
    UAuthority.get_name ⟨none⟩ = none ∧
    UAuthority.get_ip ⟨some (Remote.ip b)⟩ = some b ∧
    UAuthority.get_ip ⟨some (Remote.name n)⟩ = none ∧
    UAuthority.get_ip ⟨some (Remote.id b)⟩ = none ∧
    UAuthority.get_ip ⟨none⟩ = none ∧
    UAuthority.get_id ⟨some (Remote.id b)⟩ = some b ∧
    UAuthority.get_id ⟨some (Remote.name n)⟩ = none ∧
    UAuthority.get_id ⟨some (Remote.ip b)⟩ = none ∧
    UAuthority.get_id ⟨none⟩ = none := by
  simp [UAuthority.get_name, UAuthority.get_ip, UAuthority.get_id]

/-- Claim C7: a setter fully replaces any previously set designator: for
every ordered pair of distinct setters, after the second call the first
designator is gone (its predicate is false and its getter is absent). -/
theorem C7_setters_replace (a : UAuthority) (n : String) (x y : List Nat) :
    ((a.set_ip x).set_name n).has_ip = false ∧
    ((a.set_ip x).set_name n).get_ip = none ∧
    ((a.set_ip x).set_id y).has_ip = false ∧
    ((a.set_ip x).set_id y).get_ip = none ∧
    ((a.set_name n).set_ip x).has_name = false ∧
    ((a.set_name n).set_ip x).get_name = none ∧
    ((a.set_name n).set_id y).has_name = false ∧
    ((a.set_name n).set_id y).get_name = none ∧
    ((a.set_id x).set_name n).has_id = false ∧
    ((a.set_id x).set_name n).get_id = none ∧
    ((a.set_id x).set_ip y).has_id = false ∧
    ((a.set_id x).set_ip y).get_id = none := by
  simp [UAuthority.set_name, UAuthority.set_ip, UAuthority.set_id,
    UAuthority.has_name, UAuthority.has_ip, UAuthority.has_id,
    UAuthority.get_name, UAuthority.get_ip, UAuthority.get_id]

/-- Joining a one-element list inserts no separator. -/
theorem intercalate_singleton (s m : String) : String.intercalate s [m] = m := rfl

/-- When the collected error vector holds a single reason, the aggregated
error carries exactly that reason message. -/
theorem validate_micro_form_of_single (a : UAuthority) (m : String)
    (h : a.micro_form_validation_errors = [ValidationError.new m]) :
    a.validate_micro_form = Except.error (ValidationError.new m) := by
  simp [UAuthority.validate_micro_form, h, ValidationError.new, ValidationError.to_string,
    intercalate_singleton]

/-- When the collected error vector is empty, validation succeeds. -/
theorem validate_micro_form_of_empty (a : UAuthority)
    (h : a.micro_form_validation_errors = []) :
    a.validate_micro_form = Except.ok () := by
  simp [UAuthority.validate_micro_form, h]

/-- Claim C8: `validate_micro_form` is total: every authority maps to 
either success or a well-formed error carrying one of the four fixed
reason messages; no case is unhandled. -/
theorem C8_validate_total (a : UAuthority) :
    a.validate_micro_form = Except.ok () ∨
    ∃ m, a.validate_micro_form = Except.error (ValidationError.new m) ∧
      (m = "Has Authority, but no remote" ∨
       m = "IP address is not IPv4 (4 bytes) or IPv6 (16 bytes)" ∨
       m = "ID doesn\x27t fit in bytes allocated" ∨
       m = "Must use IP address or ID as UAuthority for micro form.") := by
  obtain ⟨r⟩ := a
  cases r with
  | none =>
      right
      refine ⟨"Has Authority, but no remote", ?_, Or.inl rfl⟩
      exact validate_micro_form_of_single _ _ rfl
  | some rem =>
      cases rem with
      | name n =>
          right
          refine ⟨"Must use IP address or ID as UAuthority for micro form.", ?_,
            Or.inr (Or.inr (Or.inr rfl))⟩
          exact validate_micro_form_of_single _ _ rfl
      | ip b =>
          by_cases h : b.length = REMOTE_IPV4_BYTES ∨ b.length = REMOTE_IPV6_BYTES
          · left
            exact validate_micro_form_of_empty _
              (by simp [UAuthority.micro_form_validation_errors, h])
          · right
            refine ⟨"IP address is not IPv4 (4 bytes) or IPv6 (16 bytes)", ?_,
              Or.inr (Or.inl rfl)⟩
            exact validate_micro_form_of_single _ _
              (by simp [UAuthority.micro_form_validation_errors, h])
      | id b =>
          by_cases h : REMOTE_ID_MINIMUM_BYTES ≤ b.length ∧ b.length ≤ REMOTE_ID_MAXIMUM_BYTES
          · left
            exact validate_micro_form_of_empty _
              (by simp [UAuthority.micro_form_validation_errors, h])
          · right
            refine ⟨"ID doesn\x27t fit in bytes allocated", ?_,
              Or.inr (Or.inr (Or.inl rfl))⟩
            exact validate_micro_form_of_single _ _
              (by simp [UAuthority.micro_form_validation_errors, h])

/-- Claim C9: validation never mutates the authority: the receiver after a
call to `validate_micro_form` (a shared-borrow method) is the receiver
itself, and every designator query observes the same value before and
after validation. -/
theorem C9_validate_immutable (a : UAuthority) :
    a.validate_micro_form_method.1 = a ∧
    a.validate_micro_form_method.1.remote = a.remote ∧
    a.validate_micro_form_method.1.has_name = a.has_name ∧
    a.validate_micro_form_method.1.has_ip = a.has_ip ∧
    a.validate_micro_form_method.1.has_id = a.has_id ∧
    a.validate_micro_form_method.1.get_name = a.get_name ∧
    a.validate_micro_form_method.1.get_ip = a.get_ip ∧
    a.validate_micro_form_method.1.get_id = a.get_id := by
  simp [UAuthority.validate_micro_form_method]

/-- Claim C10 counterexample: at the authority with an absent remote, the
aggregated failure message is the fixed no-remote reason, and that very
string contains the comma-space join separator as ordinary text, so the
message is not free of the separator as the claim states. -/
theorem C10_counterexample :
    UAuthority.validate_micro_form ⟨none⟩ =
      Except.error (ValidationError.new "Has Authority, but no remote") ∧
    mentionsStr ", " "Has Authority, but no remote" := by
  constructor
  · exact validate_micro_form_of_single _ _ rfl
  · exact ⟨"Has Authority", "but no remote", by decide⟩

/-- Claim C10 (amended): whenever `validate_micro_form` fails, the
aggregated message equals exactly one of the four fixed reason strings,
and the collected reason vector never holds more than one reason, so the
comma-space join never concatenates two reasons; the fixed no-remote
reason does, however, contain a comma-space inside its own text. -/
theorem C10_failure_messages (a : UAuthority) (e : ValidationError)
    (h : a.validate_micro_form = Except.error e) :
    a.micro_form_validation_errors.length ≤ 1 ∧
    (e.message = "Has Authority, but no remote" ∨
     e.message = "IP address is not IPv4 (4 bytes) or IPv6 (16 bytes)" ∨
     e.message = "ID doesn\x27t fit in bytes allocated" ∨
     e.message = "Must use IP address or ID as UAuthority for micro form.") := by
  constructor
  · obtain ⟨r⟩ := a
    cases r with
    | none => simp [UAuthority.micro_form_validation_errors]
    | some rem =>
        cases rem with
        | name n => simp [UAuthority.micro_form_validation_errors]
        | ip b =>
            by_cases hb : b.length = REMOTE_IPV4_BYTES ∨ b.length = REMOTE_IPV6_BYTES <;>
              simp [UAuthority.micro_form_validation_errors, hb]
        | id b =>
            by_cases hb :
                REMOTE_ID_MINIMUM_BYTES ≤ b.length ∧ b.length ≤ REMOTE_ID_MAXIMUM_BYTES <;>
              simp [UAuthority.micro_form_validation_errors, hb]
  · obtain ⟨r⟩ := a
    cases r with
    | none =>
        have h2 := validate_micro_form_of_single ⟨none⟩ "Has Authority, but no remote" rfl
        rw [h] at h2
        injection h2 with h3
        subst h3
        exact Or.inl rfl
    | some rem =>
        cases rem with
        | name n =>
            have h2 := validate_micro_form_of_single ⟨some (Remote.name n)⟩
              "Must use IP address or ID as UAuthority for micro form." rfl
            rw [h] at h2
            injection h2 with h3
            subst h3
            exact Or.inr (Or.inr (Or.inr rfl))
        | ip b =>
            by_cases hb : b.length = REMOTE_IPV4_BYTES ∨ b.length = REMOTE_IPV6_BYTES
            · have h2 := validate_micro_form_of_empty ⟨some (Remote.ip b)⟩
                (by simp [UAuthority.micro_form_validation_errors, hb])
              rw [h] at h2
              simp at h2
            · have h2 := validate_micro_form_of_single ⟨some (Remote.ip b)⟩
                "IP address is not IPv4 (4 bytes) or IPv6 (16 bytes)"
                (by simp [UAuthority.micro_form_validation_errors, hb])
              rw [h] at h2
              injection h2 with h3
              subst h3
              exact Or.inr (Or.inl rfl)
        | id b =>
            by_cases hb :
                REMOTE_ID_MINIMUM_BYTES ≤ b.length ∧ b.length ≤ REMOTE_ID_MAXIMUM_BYTES
            · have h2 := validate_micro_form_of_empty ⟨some (Remote.id b)⟩
                (by simp [UAuthority.micro_form_validation_errors, hb])
              rw [h] at h2
              simp at h2
            · have h2 := validate_micro_form_of_single ⟨some (Remote.id b)⟩
                "ID doesn\x27t fit in bytes allocated"
                (by simp [UAuthority.micro_form_validation_errors, hb])
              rw [h] at h2
              injection h2 with h3
              subst h3
              exact Or.inr (Or.inr (Or.inl rfl))

/-- Witness for the amended C10 at the authority with an absent remote. -/
theorem C10_failure_messages_witness :
    (UAuthority.micro_form_validation_errors ⟨none⟩).length ≤ 1 ∧
    ((ValidationError.new "Has Authority, but no remote").message =
        "Has Authority, but no remote" ∨
     (ValidationError.new "Has Authority, but no remote").message =
        "IP address is not IPv4 (4 bytes) or IPv6 (16 bytes)" ∨
     (ValidationError.new "Has Authority, but no remote").message =
        "ID doesn\x27t fit in bytes allocated" ∨
     (ValidationError.new "Has Authority, but no remote").message =
        "Must use IP address or ID as UAuthority for micro form.") :=
  C10_failure_messages ⟨none⟩ (ValidationError.new "Has Authority, but no remote") rfl
